import Mathlib

/-!
Verification of the MonkeyCode socket file-synchronization handler
(`backend/internal/socket/handler/socket.go`).

The handler's external collaborators (user service, workspace usecase,
workspace-file service, and the JSON unmarshaller) are modelled as an
environment of oracle functions; the reconciliation routine
`processFileUpdateAsync` is translated as a function producing the ordered
trace of collaborator calls and emissions it performs.
-/

set_option linter.unusedVariables false

namespace MonkeyCode

/-- Mirrors Go struct `FileUpdateData` (socket.go lines 17-27). -/
structure FileUpdateData where
  id : String
  filePath : String
  hash : String
  event : String
  content : String
  previousHash : String
  timestamp : Int
  apiKey : String
  workspacePath : String
deriving DecidableEq

/-- Mirrors Go struct `AckResponse` (socket.go lines 29-33). -/
structure AckResponse where
  id : String
  status : String
  message : String
deriving DecidableEq

/-- A user record, as consumed by the handler: only `user.ID.String()` is used
(socket.go line 302). -/
structure User where
  id : String
deriving DecidableEq

/-- A workspace record, as consumed by the handler: only `workspace.ID` is used
(socket.go line 480). -/
structure Workspace where
  id : String
deriving DecidableEq

/-- A workspace-file record, as consumed by the handler: `existingFile.Hash`
and `existingFile.ID` are read (socket.go lines 370, 376, 403, 451). -/
structure WorkspaceFile where
  id : String
  path : String
  content : String
  hash : String
deriving DecidableEq

/-- A store lookup error: `db.IsNotFound(err)` distinguishes not-found from
other errors (socket.go line 322). -/
inductive DBError where
  | notFound (msg : String)
  | other (msg : String)
deriving DecidableEq

/-- The `%v` rendering of a store error. -/
def DBError.message : DBError → String
  | .notFound m => m
  | .other m => m

/-- Mirrors `domain.CreateWorkspaceFileReq` as built at socket.go lines 323-329. -/
structure CreateWorkspaceFileReq where
  path : String
  content : String
  hash : String
  userID : String
  workspaceID : String
deriving DecidableEq

/-- Mirrors `domain.UpdateWorkspaceFileReq` as built at socket.go lines 375-379
and 403-407 (content and hash are always supplied). -/
structure UpdateWorkspaceFileReq where
  id : String
  content : String
  hash : String
deriving DecidableEq

/-- Mirrors `domain.CodeLanguageType` restricted to the values produced by
`getFileLanguage` (socket.go lines 622-657). -/
inductive CodeLanguageType where
  | go | python | java | javascript | typescript | jsx | tsx
  | html | css | php | rust | swift | kotlin | c | cpp
  | empty
deriving DecidableEq

/-- Mirrors `domain.FileMeta` as built at socket.go lines 339-346. -/
structure FileMeta where
  filePath : String
  language : CodeLanguageType
  content : String
deriving DecidableEq

/-- Mirrors `domain.GetAndSaveReq` as built at socket.go lines 348-352. -/
structure GetAndSaveReq where
  userID : String
  workspaceID : String
  fileMetas : List FileMeta
deriving DecidableEq

/-- The final-result payload emitted by `sendFinalResult`
(socket.go lines 586-605). -/
structure FinalResult where
  id : String
  status : String
  message : String
  file : String
deriving DecidableEq

/-- One collaborator call or emission performed while reconciling a
notification, in execution order. -/
inductive Call where
  | getUserByApiKey (apiKey : String)
  | ensureWorkspaceCall (userID workspacePath name : String)
  | getByPath (userID workspaceID path : String)
  | create (req : CreateWorkspaceFileReq)
  | update (req : UpdateWorkspaceFileReq)
  | deleteFile (id : String)
  | getAndSave (req : GetAndSaveReq)
  | sendFinalResult (res : FinalResult)
deriving DecidableEq

/-- Calls on the Workspace Store interface of the spec (ensure-or-create plus
the four file methods). -/
def Call.isWorkspaceStoreCall : Call → Bool
  | .ensureWorkspaceCall _ _ _ => true
  | .getByPath _ _ _ => true
  | .create _ => true
  | .update _ => true
  | .deleteFile _ => true
  | _ => false

/-- Workspace Store file methods: lookup, create, update, delete. -/
def Call.isFileStoreCall : Call → Bool
  | .getByPath _ _ _ => true
  | .create _ => true
  | .update _ => true
  | .deleteFile _ => true
  | _ => false

/-- Store-mutation calls: create, update, delete. -/
def Call.isStoreMutation : Call → Bool
  | .create _ => true
  | .update _ => true
  | .deleteFile _ => true
  | _ => false

/-- Create calls only. -/
def Call.isCreateCall : Call → Bool
  | .create _ => true
  | _ => false

/-- The final-result payloads occurring in a trace, in order. -/
def finalResults (trace : List Call) : List FinalResult :=
  trace.filterMap fun c =>
    match c with
    | .sendFinalResult r => some r
    | _ => none

/-- The environment of external collaborators consumed by the handler:
`userService.GetUserByApiKey`, `workspaceUsecase.EnsureWorkspace`,
`workspaceService.GetByPath/Create/Update/Delete/GetAndSave`, and
`json.Unmarshal` into `FileUpdateData`. Errors are their `%v` strings. -/
structure Env where
  GetUserByApiKey : String → Except String User
  EnsureWorkspace : String → String → String → Except String Workspace
  GetByPath : String → String → String → Except DBError WorkspaceFile
  Create : CreateWorkspaceFileReq → Except String WorkspaceFile
  Update : UpdateWorkspaceFileReq → Except String WorkspaceFile
  Delete : String → Option String
  GetAndSave : GetAndSaveReq → Option String
  jsonUnmarshalFileUpdate : String → Option FileUpdateData

/-- Mirrors `getFileExtension` (socket.go lines 608-619): the suffix after the
last dot, or the empty string when there is no dot. -/
def getFileExtensionAux : List Char → Option (List Char)
  | [] => none
  | c :: rest =>
    match getFileExtensionAux rest with
    | some e => some e
    | none => if c = '.' then some rest else none

/-- The extension of a file path, as computed by the Go helper. -/
def getFileExtension (filePath : String) : String :=
  match getFileExtensionAux filePath.toList with
  | some e => String.mk e
  | none => ""

/-- Mirrors `getFileLanguage` (socket.go lines 622-657). -/
def getFileLanguage (fileExtension : String) : CodeLanguageType :=
  if fileExtension = "go" then .go
  else if fileExtension = "py" then .python
  else if fileExtension = "java" then .java
  else if fileExtension = "js" then .javascript
  else if fileExtension = "ts" then .typescript
  else if fileExtension = "jsx" then .jsx
  else if fileExtension = "tsx" then .tsx
  else if fileExtension = "html" then .html
  else if fileExtension = "css" then .css
  else if fileExtension = "php" then .php
  else if fileExtension = "rs" then .rust
  else if fileExtension = "swift" then .swift
  else if fileExtension = "kt" then .kotlin
  else if fileExtension = "c" then .c
  else if fileExtension = "cpp" ∨ fileExtension = "cc" ∨ fileExtension = "cxx" then .cpp
  else .empty

/-- Mirrors `ensureWorkspace` (socket.go lines 472-485): the resulting
workspace ID or error, together with the collaborator calls performed. -/
def ensureWorkspace (env : Env) (userID workspacePath filePath : String) :
    Except String String × List Call :=
  if workspacePath ≠ "" then
    match env.EnsureWorkspace userID workspacePath "" with
    | .ok workspace =>
        (.ok workspace.id, [Call.ensureWorkspaceCall userID workspacePath ""])
    | .error err =>
        (.error ("failed to ensure workspace: " ++ err),
         [Call.ensureWorkspaceCall userID workspacePath ""])
  else
    (.error "no workspace path provided", [])

/-- The `GetAndSaveReq` built for the Content Indexer submission
(socket.go lines 337-352 and 419-434). -/
def mkGetAndSaveReq (userID workspaceID : String) (updateData : FileUpdateData) :
    GetAndSaveReq :=
  { userID := userID
    workspaceID := workspaceID
    fileMetas :=
      [{ filePath := updateData.filePath
         language := getFileLanguage (getFileExtension updateData.filePath)
         content := updateData.content }] }

/-- The event-kind dispatch of `processFileUpdateAsync`
(socket.go lines 316-465), after user and workspace resolution: the trace of
store calls ending in the single `sendFinalResult` emission. -/
def eventDispatch (env : Env) (userID workspaceID : String)
    (updateData : FileUpdateData) : List Call :=
  if updateData.event = "initial_scan" ∨ updateData.event = "added" then
    Call.getByPath userID workspaceID updateData.filePath ::
    match env.GetByPath userID workspaceID updateData.filePath with
    | .error (.notFound _) =>
        let createReq : CreateWorkspaceFileReq :=
          { path := updateData.filePath
            content := updateData.content
            hash := updateData.hash
            userID := userID
            workspaceID := workspaceID }
        Call.create createReq ::
        match env.Create createReq with
        | .error createErr =>
            [Call.sendFinalResult
              ⟨updateData.id, "error", "Failed to create file: " ++ createErr,
               updateData.filePath⟩]
        | .ok _ =>
            Call.getAndSave (mkGetAndSaveReq userID workspaceID updateData) ::
            [Call.sendFinalResult
              ⟨updateData.id, "success", "File created successfully",
               updateData.filePath⟩]
    | .error (.other msg) =>
        [Call.sendFinalResult
          ⟨updateData.id, "error", "Error checking for existing file: " ++ msg,
           updateData.filePath⟩]
    | .ok existingFile =>
        if existingFile.hash = updateData.hash then
          [Call.sendFinalResult
            ⟨updateData.id, "success", "File is already up-to-date",
             updateData.filePath⟩]
        else
          let updateReq : UpdateWorkspaceFileReq :=
            { id := existingFile.id
              content := updateData.content
              hash := updateData.hash }
          Call.update updateReq ::
          match env.Update updateReq with
          | .error updateErr =>
              [Call.sendFinalResult
                ⟨updateData.id, "error",
                 "Failed to update existing file: " ++ updateErr,
                 updateData.filePath⟩]
          | .ok _ =>
              [Call.sendFinalResult
                ⟨updateData.id, "success", "File updated successfully",
                 updateData.filePath⟩]
  else if updateData.event = "modified" then
    Call.getByPath userID workspaceID updateData.filePath ::
    match env.GetByPath userID workspaceID updateData.filePath with
    | .error err =>
        [Call.sendFinalResult
          ⟨updateData.id, "error",
           "Failed to find file for update: " ++ err.message,
           updateData.filePath⟩]
    | .ok file =>
        let req : UpdateWorkspaceFileReq :=
          { id := file.id
            content := updateData.content
            hash := updateData.hash }
        Call.update req ::
        match env.Update req with
        | .error err =>
            [Call.sendFinalResult
              ⟨updateData.id, "error", "Failed to update file: " ++ err,
               updateData.filePath⟩]
        | .ok _ =>
            Call.getAndSave (mkGetAndSaveReq userID workspaceID updateData) ::
            [Call.sendFinalResult
              ⟨updateData.id, "success", "File updated successfully",
               updateData.filePath⟩]
  else if updateData.event = "deleted" then
    Call.getByPath userID workspaceID updateData.filePath ::
    match env.GetByPath userID workspaceID updateData.filePath with
    | .error err =>
        [Call.sendFinalResult
          ⟨updateData.id, "error",
           "Failed to find file for deletion: " ++ err.message,
           updateData.filePath⟩]
    | .ok file =>
        Call.deleteFile file.id ::
        match env.Delete file.id with
        | some err =>
            [Call.sendFinalResult
              ⟨updateData.id, "error", "Failed to delete file: " ++ err,
               updateData.filePath⟩]
        | none =>
            [Call.sendFinalResult
              ⟨updateData.id, "success", "File deleted successfully",
               updateData.filePath⟩]
  else
    [Call.sendFinalResult
      ⟨updateData.id, "error", "Unknown event type: " ++ updateData.event,
       updateData.filePath⟩]

/-- Mirrors `processFileUpdateAsync` (socket.go lines 287-469): resolve the
user, ensure the workspace, dispatch on the event kind; every path ends in
exactly one `sendFinalResult` emission. -/
def processFileUpdateAsync (env : Env) (updateData : FileUpdateData) :
    List Call :=
  Call.getUserByApiKey updateData.apiKey ::
  match env.GetUserByApiKey updateData.apiKey with
  | .error err =>
      [Call.sendFinalResult
        ⟨updateData.id, "error", "Invalid API key: " ++ err,
         updateData.filePath⟩]
  | .ok user =>
      let ensured := ensureWorkspace env user.id updateData.workspacePath
        updateData.filePath
      ensured.2 ++
      match ensured.1 with
      | .error err =>
          [Call.sendFinalResult
            ⟨updateData.id, "error", "Failed to ensure workspace: " ++ err,
             updateData.filePath⟩]
      | .ok workspaceID =>
          eventDispatch env user.id workspaceID updateData

/-- A decoded JSON value as it appears in a structured Socket.IO payload map:
Go strings, JSON numbers (`float64`, here carried as integers since only
whole-millisecond timestamps occur), and any other shape. -/
inductive JsonValue where
  | str (s : String)
  | num (n : Int)
  | otherValue
deriving DecidableEq

/-- A `map[string]interface\x7b\x7d` payload, as a key/value association list. -/
def DataMap := List (String × JsonValue)

/-- Map lookup (`dataMap[key]`). -/
def DataMap.get (m : DataMap) (k : String) : Option JsonValue :=
  (m.find? fun p => p.1 = k).map fun p => p.2

/-- The string type assertion `dataMap[key].(string)`. -/
def DataMap.getStr (m : DataMap) (k : String) : Option String :=
  match m.get k with
  | some (.str s) => some s
  | _ => none

/-- The number type assertion `dataMap[key].(float64)`. -/
def DataMap.getNum (m : DataMap) (k : String) : Option Int :=
  match m.get k with
  | some (.num n) => some n
  | _ => none

/-- The Go zero value of `FileUpdateData` (`var updateData FileUpdateData`). -/
def zeroFileUpdateData : FileUpdateData :=
  { id := ""
    filePath := ""
    hash := ""
    event := ""
    content := ""
    previousHash := ""
    timestamp := 0
    apiKey := ""
    workspacePath := "" }

/-- The field-extraction sequence of `handleFileUpdateFromObject`
(socket.go lines 242-268): each `if v, ok := dataMap[k].(T); ok` assignment in
source order; fields whose assertion fails keep their zero value. -/
def decodeFileUpdateFromMap (dataMap : DataMap) : FileUpdateData :=
  let u := zeroFileUpdateData
  let u := match dataMap.getStr "id" with
    | some v => { u with id := v }
    | none => u
  let u := match dataMap.getStr "filePath" with
    | some v => { u with filePath := v }
    | none => u
  let u := match dataMap.getStr "event" with
    | some v => { u with event := v }
    | none => u
  let u := match dataMap.getStr "hash" with
    | some v => { u with hash := v }
    | none => u
  let u := match dataMap.getStr "content" with
    | some v => { u with content := v }
    | none => u
  let u := match dataMap.getNum "timestamp" with
    | some v => { u with timestamp := v }
    | none => u
  let u := match dataMap.getStr "apiKey" with
    | some v => { u with apiKey := v }
    | none => u
  let u := match dataMap.getStr "workspacePath" with
    | some v => { u with workspacePath := v }
    | none => u
  u

/-- One element of a Socket.IO event payload (`data.Data[i]`): a string, a
structured map, or any other shape. -/
inductive PayloadItem where
  | str (s : String)
  | obj (m : DataMap)
  | otherData

/-- The immediate reply sent through the ack callback: either an
`AckResponse` struct or an ad-hoc `status:error` map
(socket.go lines 199-202, 566-574). -/
inductive Reply where
  | ackResp (a : AckResponse)
  | errorMap (message : String)
deriving DecidableEq

/-- Mirrors `handleFileUpdate` (socket.go lines 195-220): parse the JSON
string; on failure reply with the error map `Invalid data format`; on success
reply with the `received` ack and hand the decoded notification to the
asynchronous reconciliation task (returned as the second component). -/
def handleFileUpdate (env : Env) (data : String) :
    Reply × Option FileUpdateData :=
  match env.jsonUnmarshalFileUpdate data with
  | none => (Reply.errorMap "Invalid data format", none)
  | some updateData =>
      (Reply.ackResp
        ⟨updateData.id, "received", "File update received, processing..."⟩,
       some updateData)

/-- Mirrors `handleFileUpdateFromObject` (socket.go lines 222-285) on the full
payload list: re-check presence and shape of the first element, decode it
field by field, reply with the `received` ack and spawn reconciliation. -/
def handleFileUpdateFromObject (data : List PayloadItem) :
    Reply × Option FileUpdateData :=
  match data with
  | [] => (Reply.ackResp ⟨"", "error", "No data provided"⟩, none)
  | first :: _ =>
      match first with
      | .obj dataMap =>
          let updateData := decodeFileUpdateFromMap dataMap
          (Reply.ackResp
            ⟨updateData.id, "received", "File update received, processing..."⟩,
           some updateData)
      | _ => (Reply.ackResp ⟨"", "error", "Invalid data format"⟩, none)

/-- Mirrors `processFileUpdateData` (socket.go lines 124-138): type-switch on
the first payload element; maps go to the object path, strings to the JSON
path, anything else to an immediate error ack with no task spawned. -/
def processFileUpdateData (env : Env) (first : PayloadItem)
    (rest : List PayloadItem) : Reply × Option FileUpdateData :=
  match first with
  | .obj _ => handleFileUpdateFromObject (first :: rest)
  | .str s => handleFileUpdate env s
  | .otherData =>
      (Reply.errorMap "Invalid data format - expected string or object", none)

/-- Mirrors the `file:update` subscription body
(socket.go lines 109-122): an empty payload gets the `No data provided`
error ack; otherwise dispatch on the first element. -/
def onFileUpdateEvent (env : Env) (payload : List PayloadItem) :
    Reply × Option FileUpdateData :=
  match payload with
  | [] => (Reply.errorMap "No data provided", none)
  | first :: rest => processFileUpdateData env first rest

/-- `decodesTo env item d`: payload element `item` decodes to notification
`d` on its respective path (strict JSON for strings, best-effort field
extraction for maps; other shapes never decode). -/
def decodesTo (env : Env) (item : PayloadItem) (d : FileUpdateData) : Prop :=
  match item with
  | .str s => env.jsonUnmarshalFileUpdate s = some d
  | .obj m => decodeFileUpdateFromMap m = d
  | .otherData => False

/-- The mutable per-handler state of `SocketHandler` (socket.go lines 47-57):
the workspace cache map, initialized empty by `NewSocketHandler`
(socket.go line 71). -/
structure HandlerState where
  workspaceCache : List (String × Workspace)
deriving DecidableEq

/-- The state built by `NewSocketHandler` (socket.go lines 59-79):
`workspaceCache` is a freshly made empty map. -/
def NewSocketHandlerState : HandlerState :=
  { workspaceCache := [] }

/-- The events a connection is subscribed to by `handleConnection`
(socket.go lines 85-95). -/
inductive SocketEvent where
  | fileUpdate (payload : List PayloadItem)
  | testPing (payload : List PayloadItem)
  | heartbeat (payload : List PayloadItem)
  | workspaceStats (payload : List PayloadItem)
  | disconnect (payload : List PayloadItem)

/-- One handled socket event as a transition on the handler state, also
yielding the reconciliation trace it triggers. `file:update` runs the
dispatch and, when a task is spawned, `processFileUpdateAsync`; the liveness,
stats and disconnect handlers (socket.go lines 97-107, 140-193) never touch
the handler state and make no store calls. -/
def handleSocketEvent (env : Env) (st : HandlerState) (e : SocketEvent) :
    HandlerState × List Call :=
  match e with
  | .fileUpdate payload =>
      match (onFileUpdateEvent env payload).2 with
      | some updateData => (st, processFileUpdateAsync env updateData)
      | none => (st, [])
  | .testPing _ => (st, [])
  | .heartbeat _ => (st, [])
  | .workspaceStats _ => (st, [])
  | .disconnect _ => (st, [])

/-- Folding a sequence of handled events over the handler state. -/
def runSocketEvents (env : Env) (st : HandlerState)
    (events : List SocketEvent) : HandlerState :=
  events.foldl (fun s e => (handleSocketEvent env s e).1) st

/-! Concrete collaborators and notifications used to instantiate the
theorems below. -/

/-- A concrete user. -/
def exUser : User := ⟨"u1"⟩

/-- A concrete workspace. -/
def exWorkspace : Workspace := ⟨"w1"⟩

/-- A concrete stored workspace file with hash `h1`. -/
def exFile : WorkspaceFile := ⟨"f1", "a.go", "body", "h1"⟩

/-- A concrete `added` notification whose hash matches `exFile`. -/
def exAdded : FileUpdateData :=
  { id := "n1"
    filePath := "a.go"
    hash := "h1"
    event := "added"
    content := "body"
    previousHash := ""
    timestamp := 0
    apiKey := "k1"
    workspacePath := "/ws" }

/-- An environment where the credential resolves, the workspace ensures, and
the file lookup finds `exFile`; the indexer always fails; only the string
`payload1` unmarshals (to `exAdded`). -/
def exEnvFound : Env :=
  { GetUserByApiKey := fun _ => .ok exUser
    EnsureWorkspace := fun _ _ _ => .ok exWorkspace
    GetByPath := fun _ _ _ => .ok exFile
    Create := fun req => .ok ⟨"f2", req.path, req.content, req.hash⟩
    Update := fun req => .ok ⟨req.id, "", req.content, req.hash⟩
    Delete := fun _ => none
    GetAndSave := fun _ => some "indexer unavailable"
    jsonUnmarshalFileUpdate := fun s =>
      if s = "payload1" then some exAdded else none }

/-- Like `exEnvFound` but every file lookup reports not-found. -/
def exEnvNotFound : Env :=
  { exEnvFound with
    GetByPath := fun _ _ _ => .error (.notFound "workspace_file not found") }

/-! ### C1 — idempotence of `initial_scan`/`added` on matching hash -/

/-- C1: for an `initial_scan` or `added` notification with a valid credential
and non-empty workspaceRoot, when the store lookup finds an existing file
whose hash equals the notification's hash, the outcome is success with
message `File is already up-to-date` and no create, update or delete call is
issued. -/
theorem C1_idempotent_uptodate (env : Env) (d : FileUpdateData) (u : User)
    (w : Workspace) (f : WorkspaceFile)
    (hev : d.event = "initial_scan" ∨ d.event = "added")
    (hu : env.GetUserByApiKey d.apiKey = .ok u)
    (hw : d.workspacePath ≠ "")
    (hens : env.EnsureWorkspace u.id d.workspacePath "" = .ok w)
    (hf : env.GetByPath u.id w.id d.filePath = .ok f)
    (hh : f.hash = d.hash) :
    finalResults (processFileUpdateAsync env d) =
      [⟨d.id, "success", "File is already up-to-date", d.filePath⟩] ∧
    (processFileUpdateAsync env d).filter Call.isStoreMutation = [] := by
  have htr : processFileUpdateAsync env d =
      [Call.getUserByApiKey d.apiKey,
       Call.ensureWorkspaceCall u.id d.workspacePath "",
       Call.getByPath u.id w.id d.filePath,
       Call.sendFinalResult
         ⟨d.id, "success", "File is already up-to-date", d.filePath⟩] := by
    rcases hev with h | h <;>
      simp [processFileUpdateAsync, ensureWorkspace, eventDispatch,
        hu, hw, hens, hf, hh, h]
  rw [htr]
  exact ⟨rfl, rfl⟩

/-- Closed instance of C1 at `exEnvFound`/`exAdded`. -/
theorem C1_witness :
    finalResults (processFileUpdateAsync exEnvFound exAdded) =
      [⟨"n1", "success", "File is already up-to-date", "a.go"⟩] ∧
    (processFileUpdateAsync exEnvFound exAdded).filter Call.isStoreMutation
      = [] :=
  C1_idempotent_uptodate exEnvFound exAdded exUser exWorkspace exFile
    (Or.inr rfl) rfl (by simp [exAdded]) rfl rfl rfl

/-! ### C2 — unknown event kinds -/

/-- A concrete notification with the unsupported event kind `renamed`. -/
def exRenamed : FileUpdateData :=
  { exAdded with id := "n2", event := "renamed" }

/-- C2 counterexample: reconciling a `renamed` notification with a valid
credential and non-empty workspaceRoot does issue a Workspace Store call —
the ensure-or-create call — before reaching the unknown-event branch, so the
claim that no Workspace Store call of any kind is made fails at this input. -/
theorem C2_counterexample :
    (exRenamed.event ≠ "initial_scan" ∧ exRenamed.event ≠ "added" ∧
     exRenamed.event ≠ "modified" ∧ exRenamed.event ≠ "deleted") ∧
    ¬ ((processFileUpdateAsync exEnvFound exRenamed).filter
        Call.isWorkspaceStoreCall = []) := by
  refine ⟨⟨?_, ?_, ?_, ?_⟩, ?_⟩ <;> decide

/-- C2 amended: for a notification whose event kind is none of
`initial_scan`, `added`, `modified`, `deleted`, no Workspace Store file
method (lookup, create, update, delete) is ever invoked, and — when the
credential resolves and the workspace ensure succeeds on a non-empty
workspaceRoot — the outcome is Failed with message
`Unknown event type: <value>`. (The workspace ensure-or-create call itself
still precedes the event dispatch.) -/
theorem C2_unknown_event (env : Env) (d : FileUpdateData)
    (h1 : d.event ≠ "initial_scan") (h2 : d.event ≠ "added")
    (h3 : d.event ≠ "modified") (h4 : d.event ≠ "deleted") :
    (processFileUpdateAsync env d).filter Call.isFileStoreCall = [] ∧
    (∀ u w, env.GetUserByApiKey d.apiKey = .ok u → d.workspacePath ≠ "" →
      env.EnsureWorkspace u.id d.workspacePath "" = .ok w →
      finalResults (processFileUpdateAsync env d) =
        [⟨d.id, "error", "Unknown event type: " ++ d.event, d.filePath⟩]) := by
  constructor
  · unfold processFileUpdateAsync ensureWorkspace eventDispatch
    cases hgu : env.GetUserByApiKey d.apiKey with
    | error e => simp [Call.isFileStoreCall]
    | ok u =>
      by_cases hwp : d.workspacePath = ""
      · simp [hwp, Call.isFileStoreCall]
      · cases hez : env.EnsureWorkspace u.id d.workspacePath "" with
        | error e => simp [hwp, hez, Call.isFileStoreCall]
        | ok w => simp [hwp, hez, h1, h2, h3, h4, Call.isFileStoreCall]
  · intro u w hu hwp hens
    simp [processFileUpdateAsync, ensureWorkspace, eventDispatch,
      hu, hwp, hens, h1, h2, h3, h4, finalResults]

/-- Closed instance of the amended C2 at `exEnvFound`/`exRenamed`. -/
theorem C2_witness :
    (processFileUpdateAsync exEnvFound exRenamed).filter Call.isFileStoreCall
      = [] ∧
    finalResults (processFileUpdateAsync exEnvFound exRenamed) =
      [⟨"n2", "error", "Unknown event type: renamed", "a.go"⟩] := by
  have h := C2_unknown_event exEnvFound exRenamed (by decide) (by decide)
    (by decide) (by decide)
  exact ⟨h.1, h.2 exUser exWorkspace rfl (by decide) rfl⟩

/-! ### C3 — `modified` never creates -/

/-- A concrete `modified` notification. -/
def exModified : FileUpdateData :=
  { exAdded with id := "n3", event := "modified" }

/-- C3: for a `modified` notification with a valid credential and non-empty
workspaceRoot whose lookup reports an error (in particular not-found), the
outcome is Failed with a message beginning `Failed to find file for update:`
and no create call is issued. -/
theorem C3_no_create_on_modified (env : Env) (d : FileUpdateData) (u : User)
    (w : Workspace) (e : DBError)
    (hev : d.event = "modified")
    (hu : env.GetUserByApiKey d.apiKey = .ok u)
    (hw : d.workspacePath ≠ "")
    (hens : env.EnsureWorkspace u.id d.workspacePath "" = .ok w)
    (hf : env.GetByPath u.id w.id d.filePath = .error e) :
    finalResults (processFileUpdateAsync env d) =
      [⟨d.id, "error", "Failed to find file for update: " ++ e.message,
        d.filePath⟩] ∧
    (processFileUpdateAsync env d).filter Call.isCreateCall = [] := by
  have htr : processFileUpdateAsync env d =
      [Call.getUserByApiKey d.apiKey,
       Call.ensureWorkspaceCall u.id d.workspacePath "",
       Call.getByPath u.id w.id d.filePath,
       Call.sendFinalResult
         ⟨d.id, "error", "Failed to find file for update: " ++ e.message,
          d.filePath⟩] := by
    simp [processFileUpdateAsync, ensureWorkspace, eventDispatch,
      hu, hw, hens, hf, hev]
  rw [htr]
  exact ⟨rfl, rfl⟩

/-- Closed instance of C3 at `exEnvNotFound`/`exModified`. -/
theorem C3_witness :
    finalResults (processFileUpdateAsync exEnvNotFound exModified) =
      [⟨"n3", "error",
        "Failed to find file for update: workspace_file not found", "a.go"⟩] ∧
    (processFileUpdateAsync exEnvNotFound exModified).filter Call.isCreateCall
      = [] :=
  C3_no_create_on_modified exEnvNotFound exModified exUser exWorkspace
    (.notFound "workspace_file not found") rfl rfl (by decide) rfl rfl

/-! ### C5 — missing workspace root -/

/-- A concrete notification with an empty workspaceRoot. -/
def exNoRoot : FileUpdateData :=
  { exAdded with id := "n5", workspacePath := "" }

/-- C5: for a notification with a valid credential and an empty
workspaceRoot, the outcome is Failed with message
`Failed to ensure workspace: no workspace path provided` (containing
`no workspace path provided`), and no Workspace Store file method is
invoked. -/
theorem C5_missing_workspace_root (env : Env) (d : FileUpdateData) (u : User)
    (hu : env.GetUserByApiKey d.apiKey = .ok u)
    (hw : d.workspacePath = "") :
    finalResults (processFileUpdateAsync env d) =
      [⟨d.id, "error",
        "Failed to ensure workspace: no workspace path provided",
        d.filePath⟩] ∧
    (processFileUpdateAsync env d).filter Call.isFileStoreCall = [] := by
  have htr : processFileUpdateAsync env d =
      [Call.getUserByApiKey d.apiKey,
       Call.sendFinalResult
         ⟨d.id, "error",
          "Failed to ensure workspace: no workspace path provided",
          d.filePath⟩] := by
    simp [processFileUpdateAsync, ensureWorkspace, hu, hw]
  rw [htr]
  exact ⟨rfl, rfl⟩

/-- Closed instance of C5 at `exEnvFound`/`exNoRoot`. -/
theorem C5_witness :
    finalResults (processFileUpdateAsync exEnvFound exNoRoot) =
      [⟨"n5", "error",
        "Failed to ensure workspace: no workspace path provided", "a.go"⟩] ∧
    (processFileUpdateAsync exEnvFound exNoRoot).filter Call.isFileStoreCall
      = [] :=
  C5_missing_workspace_root exEnvFound exNoRoot exUser rfl rfl

/-! ### C4 — two-phase acknowledgement -/

/-- Every reconciliation run emits exactly one final result, and it carries
the notification's correlation id and file path. -/
theorem finalResults_processFileUpdateAsync (env : Env)
    (d : FileUpdateData) :
    ∃ st msg, finalResults (processFileUpdateAsync env d) =
      [⟨d.id, st, msg, d.filePath⟩] := by
  unfold processFileUpdateAsync ensureWorkspace eventDispatch
  repeat' split
  all_goals try dsimp only
  all_goals repeat' split
  all_goals exact ⟨_, _, rfl⟩

/-- C4: a structurally valid file-change payload element (a parseable JSON
string or a structured map) yields exactly one immediate
`status: received` reply carrying the decoded id, spawns the reconciliation
task, and reconciliation emits exactly one final result carrying the same
id — on every terminal path, for every environment. -/
theorem C4_two_phase_ack (env : Env) (item : PayloadItem)
    (rest : List PayloadItem) (d : FileUpdateData)
    (hdec : decodesTo env item d) :
    processFileUpdateData env item rest =
      (Reply.ackResp
        ⟨d.id, "received", "File update received, processing..."⟩,
       some d) ∧
    ∃ st msg, finalResults (processFileUpdateAsync env d) =
      [⟨d.id, st, msg, d.filePath⟩] := by
  refine ⟨?_, finalResults_processFileUpdateAsync env d⟩
  cases item with
  | str s =>
      have h : env.jsonUnmarshalFileUpdate s = some d := hdec
      simp [processFileUpdateData, handleFileUpdate, h]
  | obj m =>
      have h : decodeFileUpdateFromMap m = d := hdec
      simp [processFileUpdateData, handleFileUpdateFromObject, h]
  | otherData => exact absurd hdec id

/-- Closed instance of C4 at `exEnvFound` with the string payload
`payload1`, which unmarshals to `exAdded`. -/
theorem C4_witness :
    processFileUpdateData exEnvFound (.str "payload1") [] =
      (Reply.ackResp
        ⟨"n1", "received", "File update received, processing..."⟩,
       some exAdded) ∧
    ∃ st msg, finalResults (processFileUpdateAsync exEnvFound exAdded) =
      [⟨"n1", st, msg, "a.go"⟩] :=
  C4_two_phase_ack exEnvFound (.str "payload1") [] exAdded
    (show exEnvFound.jsonUnmarshalFileUpdate "payload1" = some exAdded by
      decide)

/-! ### C6 — malformed string payload -/

/-- C6: a string payload that the JSON unmarshaller rejects yields the
immediate error reply `Invalid data format` and spawns no reconciliation
task. -/
theorem C6_malformed_payload (env : Env) (s : String)
    (rest : List PayloadItem)
    (h : env.jsonUnmarshalFileUpdate s = none) :
    processFileUpdateData env (.str s) rest =
      (Reply.errorMap "Invalid data format", none) := by
  simp [processFileUpdateData, handleFileUpdate, h]

/-- Closed instance of C6 at `exEnvFound` with the unparseable payload
`not-json\x7b`. -/
theorem C6_witness :
    processFileUpdateData exEnvFound (.str "not-json\x7b") [] =
      (Reply.errorMap "Invalid data format", none) :=
  C6_malformed_payload exEnvFound "not-json\x7b" [] (by decide)

/-! ### C7 — indexer failures never change the outcome -/

/-- An always-failing Content Indexer. -/
def exIndexerFailure : GetAndSaveReq → Option String :=
  fun _ => some "indexer down"

/-- C7: when the file create (on `initial_scan`/`added` with no existing
record) or the `modified` update succeeds, the outcome is success with the
respective message for every possible Content Indexer behavior `g` —
indexer failures are never propagated. -/
theorem C7_indexer_best_effort (env : Env)
    (g : GetAndSaveReq → Option String) (d : FileUpdateData) (u : User)
    (w : Workspace)
    (hu : env.GetUserByApiKey d.apiKey = .ok u)
    (hw : d.workspacePath ≠ "")
    (hens : env.EnsureWorkspace u.id d.workspacePath "" = .ok w) :
    ((d.event = "initial_scan" ∨ d.event = "added") →
      ∀ m, env.GetByPath u.id w.id d.filePath = .error (.notFound m) →
      ∀ cf, env.Create
          { path := d.filePath, content := d.content, hash := d.hash,
            userID := u.id, workspaceID := w.id } = .ok cf →
      finalResults (processFileUpdateAsync { env with GetAndSave := g } d) =
        [⟨d.id, "success", "File created successfully", d.filePath⟩]) ∧
    (d.event = "modified" →
      ∀ f, env.GetByPath u.id w.id d.filePath = .ok f →
      ∀ uf, env.Update
          { id := f.id, content := d.content, hash := d.hash } = .ok uf →
      finalResults (processFileUpdateAsync { env with GetAndSave := g } d) =
        [⟨d.id, "success", "File updated successfully", d.filePath⟩]) := by
  constructor
  · intro hev m hnf cf hcr
    rcases hev with h | h <;>
      simp [processFileUpdateAsync, ensureWorkspace, eventDispatch,
        hu, hw, hens, hnf, hcr, h, finalResults]
  · intro hev f hok uf hupd
    simp [processFileUpdateAsync, ensureWorkspace, eventDispatch,
      hu, hw, hens, hok, hupd, hev, finalResults]

/-- Closed instance of C7 (create branch) at `exEnvNotFound` with the
always-failing indexer. -/
theorem C7_witness :
    finalResults (processFileUpdateAsync
        { exEnvNotFound with GetAndSave := exIndexerFailure } exAdded) =
      [⟨"n1", "success", "File created successfully", "a.go"⟩] :=
  (C7_indexer_best_effort exEnvNotFound exIndexerFailure exAdded exUser
      exWorkspace rfl (by decide) rfl).1 (Or.inr rfl)
    "workspace_file not found" rfl ⟨"f2", "a.go", "body", "h1"⟩ rfl

/-! ### C8 — empty filePath is not rejected -/

/-- A concrete `added` notification with an empty filePath. -/
def exEmptyPath : FileUpdateData :=
  { exAdded with id := "n8", filePath := "" }

/-- C8 counterexample: an `added` notification with empty filePath is not
rejected — reconciliation proceeds to the Workspace Store file lookup and
create with the empty path and reports success, so the claim that an
absent filePath is treated as invalid fails at this input. -/
theorem C8_counterexample :
    Call.getByPath "u1" "w1" ""
      ∈ processFileUpdateAsync exEnvNotFound exEmptyPath ∧
    Call.create ⟨"", "body", "h1", "u1", "w1"⟩
      ∈ processFileUpdateAsync exEnvNotFound exEmptyPath ∧
    finalResults (processFileUpdateAsync exEnvNotFound exEmptyPath) =
      [⟨"n8", "success", "File created successfully", ""⟩] := by
  refine ⟨?_, ?_, ?_⟩ <;> decide

/-- C8 amended: reconciliation performs no filePath validation — for an
`initial_scan`/`added` notification with a valid credential and non-empty
workspaceRoot but an empty filePath, the Workspace Store file lookup is
issued with the empty path. -/
theorem C8_empty_path_proceeds (env : Env) (d : FileUpdateData) (u : User)
    (w : Workspace)
    (hev : d.event = "initial_scan" ∨ d.event = "added")
    (hu : env.GetUserByApiKey d.apiKey = .ok u)
    (hw : d.workspacePath ≠ "")
    (hens : env.EnsureWorkspace u.id d.workspacePath "" = .ok w)
    (hfp : d.filePath = "") :
    Call.getByPath u.id w.id "" ∈ processFileUpdateAsync env d := by
  rcases hev with h | h <;>
    simp [processFileUpdateAsync, ensureWorkspace, eventDispatch,
      hu, hw, hens, h, hfp]

/-- Closed instance of the amended C8 at `exEnvNotFound`/`exEmptyPath`. -/
theorem C8_witness :
    Call.getByPath "u1" "w1" ""
      ∈ processFileUpdateAsync exEnvNotFound exEmptyPath :=
  C8_empty_path_proceeds exEnvNotFound exEmptyPath exUser exWorkspace
    (Or.inr rfl) rfl (by decide) rfl rfl

/-! ### C9 — the workspace cache is never touched -/

/-- Every handled socket event leaves the handler state unchanged. -/
theorem handleSocketEvent_state (env : Env) (st : HandlerState)
    (e : SocketEvent) : (handleSocketEvent env st e).1 = st := by
  cases e with
  | fileUpdate payload =>
      cases h : (onFileUpdateEvent env payload).2 <;>
        simp [handleSocketEvent, h]
  | testPing payload => rfl
  | heartbeat payload => rfl
  | workspaceStats payload => rfl
  | disconnect payload => rfl

/-- C9: after any sequence of handled events starting from the state built
by `NewSocketHandler`, the workspace cache is still exactly the empty map
created at initialization. -/
theorem C9_workspace_cache_untouched (env : Env)
    (events : List SocketEvent) :
    (runSocketEvents env NewSocketHandlerState events).workspaceCache
      = [] := by
  suffices h : ∀ st : HandlerState,
      runSocketEvents env st events = st by
    rw [h NewSocketHandlerState]; rfl
  induction events with
  | nil => intro st; rfl
  | cons e es ih =>
    intro st
    show runSocketEvents env (handleSocketEvent env st e).1 es = st
    rw [handleSocketEvent_state, ih st]

/-! ### C10 — the map path never populates previousHash -/

/-- C10: the structured-map decode path never populates `previousHash`: for
every map payload (in particular one containing a `previousHash` key), the
decoded notification's `previousHash` is empty. -/
theorem C10_previousHash_never_set (m : DataMap) :
    (decodeFileUpdateFromMap m).previousHash = "" := by
  unfold decodeFileUpdateFromMap
  cases m.getStr "id" <;> cases m.getStr "filePath" <;>
    cases m.getStr "event" <;> cases m.getStr "hash" <;>
    cases m.getStr "content" <;> cases m.getNum "timestamp" <;>
    cases m.getStr "apiKey" <;> cases m.getStr "workspacePath" <;> rfl

end MonkeyCode
